import Mathlib

/-!
Verification of the lemonade-stand day-simulation core (src/game.js and the
orchestrator's sales-attempt generator) against its natural-language
specification.  JavaScript numbers are embedded as exact rationals; every
arithmetic operation appearing in the source (addition, multiplication,
division by a positive quantity, Math.min, Math.floor, Math.round, Math.abs)
is exact on the rationals for the inputs the spec speaks about.
-/

namespace LemonadeStand

/-- Weather enum from game.js (Weather = {COLD, CLOUDY, SUNNY, HOT}). -/
inductive Weather where
  | cold
  | cloudy
  | sunny
  | hot
  deriving DecidableEq, Repr

/-- Recipe record: per-cup ingredient amounts. -/
structure Recipe where
  lemons : ℚ
  sugar : ℚ
  ice : ℚ
  deriving DecidableEq, Repr

/-- Supplies record: on-hand inventory. -/
structure Supplies where
  lemons : ℚ
  sugar : ℚ
  ice : ℚ
  cups : ℚ
  deriving DecidableEq, Repr

/-- GameState record from game.js. -/
structure GameState where
  player_money : ℚ
  recipe : Recipe
  supplies : Supplies
  weather : Weather
  price_per_cup : ℚ
  cups_sold : ℚ
  cost_per_cup : ℚ
  current_day : ℚ
  total_earnings : ℚ
  deriving DecidableEq, Repr

/-! Game balance constants from game.js lines 16-25. -/

def BASE_DEMAND : ℚ := 30

def PRICE_SENSITIVITY : ℚ := 1.5

def DEMAND_VARIANCE : ℚ := 0.2

def TASTE_SCORE_MIN : ℚ := 0.5

def TASTE_SCORE_MAX : ℚ := 1.2

def TASTE_PENALTY_LEMON : ℚ := 0.3

def TASTE_PENALTY_SUGAR : ℚ := 0.2

def PERFECT_RECIPE_BONUS : ℚ := 0.2

def STARTING_MONEY : ℚ := 2.00

def STARTING_PRICE : ℚ := 1.00

/-- WeatherFactor table (game.js lines 32-37).  The JS lookup
`WeatherFactor[weather] || 1.0` is total on the enum, so the fallback is
unreachable for enum weather. -/
def WeatherFactor : Weather → ℚ
  | .cold => 0.5
  | .cloudy => 0.8
  | .sunny => 1.0
  | .hot => 1.4

/-- IdealPrice table (game.js lines 44-49). -/
def IdealPrice : Weather → ℚ
  | .cold => 0.20
  | .cloudy => 0.30
  | .sunny => 0.35
  | .hot => 0.50

/-- IdealRecipe table (game.js lines 56-77). -/
def IdealRecipe : Weather → Recipe
  | .cold => { lemons := 1, sugar := 2, ice := 1 }
  | .cloudy => { lemons := 1, sugar := 1, ice := 2 }
  | .sunny => { lemons := 1, sugar := 1, ice := 3 }
  | .hot => { lemons := 1, sugar := 1, ice := 4 }

/-- JavaScript Math.round on an exact rational: nearest integer, ties toward
positive infinity, i.e. floor(q + 1/2). -/
def jsRound (q : ℚ) : ℤ := ⌊q + 1 / 2⌋

/-- The rounding idiom Math.round(q * 100) / 100 used throughout game.js, with
the product q * 100 taken exactly.  At inputs whose binary64 product lands on
the other side of the .5 tie (for example 1.005 * 100, which evaluates to
100.49999999999999 in the program), the program rounds down where this exact
model rounds up; no property proved below about prices or costs depends on
such a tie input. -/
def roundCents (q : ℚ) : ℚ := (jsRound (q * 100) : ℚ) / 100

/-- A supply pricing tier {min, max, price}; max = none encodes Infinity. -/
structure Tier where
  min : ℚ
  max : Option ℚ
  price : ℚ
  deriving DecidableEq, Repr

/-- The JS predicate `quantity >= t.min && quantity <= t.max` (anything is
<= Infinity). -/
def Tier.containsQty (t : Tier) (q : ℚ) : Bool :=
  decide (t.min ≤ q) &&
    (match t.max with
     | none => true
     | some m => decide (q ≤ m))

/-- Valid supply item types (game.js line 83). -/
inductive SupplyItem where
  | lemons
  | sugar
  | ice
  | cups
  deriving DecidableEq, Repr

/-- Tiered pricing structure for supplies (game.js lines 90-110). -/
def SupplyPricing : SupplyItem → List Tier
  | .lemons =>
      [{ min := 1, max := some 50, price := 0.02 },
       { min := 51, max := some 100, price := 0.018 },
       { min := 101, max := none, price := 0.015 }]
  | .sugar =>
      [{ min := 1, max := some 50, price := 0.01 },
       { min := 51, max := some 100, price := 0.009 },
       { min := 101, max := none, price := 0.008 }]
  | .ice =>
      [{ min := 1, max := some 100, price := 0.01 },
       { min := 101, max := some 300, price := 0.009 },
       { min := 301, max := none, price := 0.008 }]
  | .cups =>
      [{ min := 1, max := some 100, price := 0.01 },
       { min := 101, max := none, price := 0.009 }]

/-- calculate_supply_cost (game.js lines 118-127): zero for non-positive
quantity, otherwise the first tier containing the quantity prices it,
rounded to cents; no matching tier yields 0. -/
def calculate_supply_cost (item : SupplyItem) (quantity : ℚ) : ℚ :=
  if quantity ≤ 0 then 0
  else
    match (SupplyPricing item).find? (fun t => t.containsQty quantity) with
    | some t => roundCents (quantity * t.price)
    | none => 0

/-- WeatherChance weighted list (game.js lines 145-150). -/
def WeatherChance : List (Weather × ℚ) :=
  [(.cloudy, 40), (.sunny, 35), (.hot, 15), (.cold, 10)]

/-- The for-loop of set_weather: walk the categories in order, returning the
first whose weight exceeds the running roll, subtracting each weight. -/
def weatherWalk : List (Weather × ℚ) → ℚ → Option Weather
  | [], _ => none
  | w :: rest, roll => if roll < w.2 then some w.1 else weatherWalk rest (roll - w.2)

/-- set_weather (game.js lines 247-270): scale the roll by the total weight,
walk WeatherChance; on fallthrough fall back to SUNNY. -/
def set_weather (game_state : GameState) (random : ℚ) : GameState :=
  let totalWeight := (WeatherChance.map Prod.snd).sum
  match weatherWalk WeatherChance (random * totalWeight) with
  | some w => { game_state with weather := w }
  | none => { game_state with weather := .sunny }

/-- init_game (game.js lines 186-207). -/
def init_game : GameState :=
  { player_money := STARTING_MONEY
    recipe := { lemons := 0, sugar := 0, ice := 0 }
    supplies := { lemons := 0, sugar := 0, ice := 0, cups := 0 }
    weather := .sunny
    price_per_cup := STARTING_PRICE
    cups_sold := 0
    cost_per_cup := 0
    current_day := 1
    total_earnings := 0 }

/-- set_recipe (game.js lines 219-237): replaces the recipe wholesale. -/
def set_recipe (game_state : GameState) (lemons sugar ice : ℚ) : GameState :=
  { game_state with recipe := { lemons := lemons, sugar := sugar, ice := ice } }

/-- set_price_per_cup (game.js lines 280-288):
price_per_cup := Math.round(cost * 100) / 100. -/
def set_price_per_cup (game_state : GameState) (cost : ℚ) : GameState :=
  { game_state with price_per_cup := roundCents cost }

/-- calculate_taste_score (game.js lines 334-355). -/
def calculate_taste_score (lemons_per_cup sugar_per_cup ideal_lemons ideal_sugar : ℚ) : ℚ :=
  let lemon_diff := |lemons_per_cup - ideal_lemons|
  let sugar_diff := |sugar_per_cup - ideal_sugar|
  let score : ℚ := 1.0
  let score :=
    if lemon_diff = 0 ∧ sugar_diff = 0 then score + PERFECT_RECIPE_BONUS
    else score - (lemon_diff * TASTE_PENALTY_LEMON + sugar_diff * TASTE_PENALTY_SUGAR)
  let score := if score < TASTE_SCORE_MIN then TASTE_SCORE_MIN else score
  let score := if score > TASTE_SCORE_MAX then TASTE_SCORE_MAX else score
  score

/-- calculate_cups_sold (game.js lines 301-322).  The random default
argument Math.random() is passed explicitly here. -/
def calculate_cups_sold (price_per_cup cups_in_supplies : ℚ) (weather : Weather)
    (tasteScore random : ℚ) : ℚ :=
  let weather_factor := WeatherFactor weather
  let ideal_price := IdealPrice weather
  let price_effect := 1 - (price_per_cup - ideal_price) * PRICE_SENSITIVITY
  let price_effect := if price_effect < 0 then 0 else price_effect
  let demand := BASE_DEMAND * weather_factor * price_effect * tasteScore
  let demand := demand * ((1 - DEMAND_VARIANCE / 2) + random * DEMAND_VARIANCE)
  min (⌊demand⌋ : ℚ) cups_in_supplies

/-- The un-floored cups_available minimum computed inline in make_lemonade
(game.js lines 388-393).  JS computes Math.min over four terms where a
zero-requirement ingredient contributes Infinity; since the final term (the
cup supply) is always finite, an Infinity term never affects the minimum,
so such a term is modelled by skipping it. -/
def mlCupsAvail (supplies : Supplies) (recipe : Recipe) : ℚ :=
  let m := supplies.cups
  let m := if 0 < recipe.ice then min (supplies.ice / recipe.ice) m else m
  let m := if 0 < recipe.sugar then min (supplies.sugar / recipe.sugar) m else m
  if 0 < recipe.lemons then min (supplies.lemons / recipe.lemons) m else m

/-- make_lemonade (game.js lines 365-413).  The random value consumed by its
internal calculate_cups_sold call (defaulted to Math.random() in JS) is an
explicit parameter. -/
def make_lemonade (game_state : GameState) (random : ℚ) : GameState :=
  let recipe := game_state.recipe
  let weather := game_state.weather
  let price := game_state.price_per_cup
  let ideal := IdealRecipe weather
  let tasteScore := calculate_taste_score recipe.lemons recipe.sugar ideal.lemons ideal.sugar
  if recipe.lemons = 0 then
    { game_state with cups_sold := 0 }
  else
    let cups_available := mlCupsAvail game_state.supplies recipe
    let cups_sold := calculate_cups_sold price cups_available weather tasteScore random
    let remaining_supplies : Supplies :=
      { lemons := game_state.supplies.lemons - recipe.lemons * cups_sold
        sugar := game_state.supplies.sugar - recipe.sugar * cups_sold
        ice := game_state.supplies.ice - recipe.ice * cups_sold
        cups := game_state.supplies.cups - cups_sold }
    let profit := price * cups_sold
    { game_state with
        player_money := game_state.player_money + profit
        supplies := remaining_supplies
        cups_sold := cups_sold
        total_earnings := game_state.total_earnings + profit }

/-- calculate_maximum_cups_available (game.js lines 453-466): zero when the
recipe has no lemons, otherwise the floor of the same Math.min expression
(written out again here because the source states it a second time). -/
def calculate_maximum_cups_available (supplies : Supplies) (recipe : Recipe) : ℚ :=
  if recipe.lemons = 0 then 0
  else
    let m := supplies.cups
    let m := if 0 < recipe.ice then min (supplies.ice / recipe.ice) m else m
    let m := if 0 < recipe.sugar then min (supplies.sugar / recipe.sugar) m else m
    let m := if 0 < recipe.lemons then min (supplies.lemons / recipe.lemons) m else m
    (⌊m⌋ : ℚ)

/-- JavaScript array element assignment a[i] = v on a dense boolean array:
writing at an index past the end extends the array (the in-between slots,
which never arise in this program because writes are sequential, would be
holes and are read back as falsy; they are modelled as false). -/
def jsArraySet (l : List Bool) (i : ℕ) (v : Bool) : List Bool :=
  if i < l.length then l.set i v
  else l ++ List.replicate (i - l.length) false ++ [v]

/-- The seeding loop of generateSalesAttempts:
for (i = 0; i < cupsSold; i++) attempts[i] = true. -/
def fillTrue (l : List Bool) : ℕ → List Bool
  | 0 => l
  | n + 1 => jsArraySet (fillTrue l n) n true

/-- The destructuring swap [a[i], a[j]] = [a[j], a[i]]. -/
def fySwap (l : List Bool) (i j : ℕ) : List Bool :=
  (l.set i (l.getD j false)).set j (l.getD i false)

/-- The Fisher-Yates loop of generateSalesAttempts:
for (i = len-1; i > 0; i--) swap i with rand i, where rand i models
Math.floor(Math.random() * (i + 1)). -/
def fyLoop (rand : ℕ → ℕ) : ℕ → List Bool → List Bool
  | 0, l => l
  | i + 1, l => fyLoop rand i (fySwap l (i + 1) (rand (i + 1)))

/-- generateSalesAttempts (orchestrator, src/unnamed/part_000 lines 28-37).
The random source is the explicit function rand giving the chosen swap
index for each loop index. -/
def generateSalesAttempts (rand : ℕ → ℕ) (maxCups cupsSold : ℕ) : List Bool :=
  let attempts := fillTrue (List.replicate maxCups false) cupsSold
  fyLoop rand (attempts.length - 1) attempts

/-! Reachability and the state invariant (spec section 3). -/

/-- A rational is an exact two-decimal (cents) value. -/
def isCents (q : ℚ) : Prop := ∃ n : ℤ, q = (n : ℚ) / 100

/-- The weather value is one of the four enum values. -/
def WeatherValid (w : Weather) : Prop :=
  w = .cold ∨ w = .cloudy ∨ w = .sunny ∨ w = .hot

/-- The spec's GameState invariant: supplies and recipe non-negative,
price_per_cup rounded to two decimals, weather in the enum. -/
def Inv (s : GameState) : Prop :=
  0 ≤ s.supplies.lemons ∧ 0 ≤ s.supplies.sugar ∧ 0 ≤ s.supplies.ice ∧
  0 ≤ s.supplies.cups ∧
  0 ≤ s.recipe.lemons ∧ 0 ≤ s.recipe.sugar ∧ 0 ≤ s.recipe.ice ∧
  isCents s.price_per_cup ∧ WeatherValid s.weather

/-- States reachable from init_game by the four transitions, with the
argument ranges the spec assumes: non-negative recipe amounts, non-negative
price, weather roll in [0, 1], demand roll in [0, 1). -/
inductive Reachable : GameState → Prop where
  | init : Reachable init_game
  | recipe (s : GameState) (lemons sugar ice : ℚ) (hs : Reachable s)
      (h1 : 0 ≤ lemons) (h2 : 0 ≤ sugar) (h3 : 0 ≤ ice) :
      Reachable (set_recipe s lemons sugar ice)
  | price (s : GameState) (cost : ℚ) (hs : Reachable s) (h : 0 ≤ cost) :
      Reachable (set_price_per_cup s cost)
  | weather (s : GameState) (r : ℚ) (hs : Reachable s)
      (h0 : 0 ≤ r) (h1 : r ≤ 1) :
      Reachable (set_weather s r)
  | lemonade (s : GameState) (r : ℚ) (hs : Reachable s)
      (h0 : 0 ≤ r) (h1 : r < 1) :
      Reachable (make_lemonade s r)

/-! Helper lemmas. -/

/-- A concrete mid-game state used to instantiate witnesses. -/
def sEx : GameState :=
  { player_money := 10
    recipe := { lemons := 1, sugar := 1, ice := 3 }
    supplies := { lemons := 100, sugar := 100, ice := 300, cups := 100 }
    weather := .sunny
    price_per_cup := 1
    cups_sold := 0
    cost_per_cup := 0
    current_day := 1
    total_earnings := 0 }

lemma weatherValid_all (w : Weather) : WeatherValid w := by
  cases w <;> simp [WeatherValid]

lemma taste_score_bounds (a b c d : ℚ) :
    1 / 2 ≤ calculate_taste_score a b c d ∧ calculate_taste_score a b c d ≤ 6 / 5 := by
  unfold calculate_taste_score
  simp only [TASTE_SCORE_MIN, TASTE_SCORE_MAX, PERFECT_RECIPE_BONUS,
    TASTE_PENALTY_LEMON, TASTE_PENALTY_SUGAR]
  split_ifs <;> constructor <;> norm_num <;> linarith

lemma weatherFactor_pos (w : Weather) : 0 < WeatherFactor w := by
  cases w <;> norm_num [WeatherFactor]

lemma cups_sold_le_avail (p ca : ℚ) (w : Weather) (t r : ℚ) :
    calculate_cups_sold p ca w t r ≤ ca := by
  unfold calculate_cups_sold
  exact min_le_right _ _

/-- Unfolding equation for calculate_cups_sold with its lets expanded. -/
lemma calculate_cups_sold_eq (p ca : ℚ) (w : Weather) (t r : ℚ) :
    calculate_cups_sold p ca w t r =
      min
        ((⌊BASE_DEMAND * WeatherFactor w *
            (if 1 - (p - IdealPrice w) * PRICE_SENSITIVITY < 0 then 0
             else 1 - (p - IdealPrice w) * PRICE_SENSITIVITY) * t *
            ((1 - DEMAND_VARIANCE / 2) + r * DEMAND_VARIANCE)⌋ : ℤ) : ℚ)
        ca := rfl

lemma cups_sold_nonneg (p ca : ℚ) (w : Weather) (t r : ℚ)
    (ht : 0 ≤ t) (hr : 0 ≤ r) (hca : 0 ≤ ca) :
    0 ≤ calculate_cups_sold p ca w t r := by
  rw [calculate_cups_sold_eq]
  refine le_min ?_ hca
  have hwf : 0 < WeatherFactor w := weatherFactor_pos w
  have hpe : (0 : ℚ) ≤
      (if 1 - (p - IdealPrice w) * PRICE_SENSITIVITY < 0 then 0
       else 1 - (p - IdealPrice w) * PRICE_SENSITIVITY) := by
    split_ifs with h
    · exact le_rfl
    · linarith
  have hnoise : (0 : ℚ) ≤ (1 - DEMAND_VARIANCE / 2) + r * DEMAND_VARIANCE := by
    norm_num [DEMAND_VARIANCE]; linarith
  have hdemand : (0 : ℚ) ≤
      BASE_DEMAND * WeatherFactor w *
        (if 1 - (p - IdealPrice w) * PRICE_SENSITIVITY < 0 then 0
         else 1 - (p - IdealPrice w) * PRICE_SENSITIVITY) * t *
        ((1 - DEMAND_VARIANCE / 2) + r * DEMAND_VARIANCE) := by
    have h30 : (0 : ℚ) ≤ BASE_DEMAND := by norm_num [BASE_DEMAND]
    exact mul_nonneg (mul_nonneg (mul_nonneg (mul_nonneg h30 hwf.le) hpe) ht) hnoise
  exact_mod_cast Int.floor_nonneg.mpr hdemand

/-- Unfolding equation for mlCupsAvail with its lets expanded. -/
lemma mlCupsAvail_eq (sup : Supplies) (rec : Recipe) :
    mlCupsAvail sup rec =
      (if 0 < rec.lemons then
         min (sup.lemons / rec.lemons)
           (if 0 < rec.sugar then
              min (sup.sugar / rec.sugar)
                (if 0 < rec.ice then min (sup.ice / rec.ice) sup.cups else sup.cups)
            else if 0 < rec.ice then min (sup.ice / rec.ice) sup.cups else sup.cups)
       else if 0 < rec.sugar then
              min (sup.sugar / rec.sugar)
                (if 0 < rec.ice then min (sup.ice / rec.ice) sup.cups else sup.cups)
            else if 0 < rec.ice then min (sup.ice / rec.ice) sup.cups else sup.cups) := rfl

lemma mlCupsAvail_nonneg (sup : Supplies) (rec : Recipe)
    (h1 : 0 ≤ sup.lemons) (h2 : 0 ≤ sup.sugar) (h3 : 0 ≤ sup.ice)
    (h4 : 0 ≤ sup.cups) :
    0 ≤ mlCupsAvail sup rec := by
  rw [mlCupsAvail_eq]
  split_ifs <;> try simp only [le_min_iff]
  all_goals repeat' apply And.intro
  all_goals
    first
      | exact h4
      | exact div_nonneg h1 (le_of_lt (by assumption))
      | exact div_nonneg h2 (le_of_lt (by assumption))
      | exact div_nonneg h3 (le_of_lt (by assumption))

lemma mlCupsAvail_le_cups (sup : Supplies) (rec : Recipe) :
    mlCupsAvail sup rec ≤ sup.cups := by
  rw [mlCupsAvail_eq]
  split_ifs <;> simp [min_le_iff]

lemma mlCupsAvail_le_lemons (sup : Supplies) (rec : Recipe) (h : 0 < rec.lemons) :
    mlCupsAvail sup rec ≤ sup.lemons / rec.lemons := by
  rw [mlCupsAvail_eq, if_pos h]
  exact min_le_left _ _

lemma mlCupsAvail_le_sugar (sup : Supplies) (rec : Recipe) (h : 0 < rec.sugar) :
    mlCupsAvail sup rec ≤ sup.sugar / rec.sugar := by
  rw [mlCupsAvail_eq]
  split_ifs <;>
    first
      | exact absurd h (by assumption)
      | exact min_le_left _ _
      | exact le_trans (min_le_right _ _) (min_le_left _ _)

lemma mlCupsAvail_le_ice (sup : Supplies) (rec : Recipe) (h : 0 < rec.ice) :
    mlCupsAvail sup rec ≤ sup.ice / rec.ice := by
  rw [mlCupsAvail_eq]
  split_ifs <;>
    first
      | exact absurd h (by assumption)
      | exact min_le_left _ _
      | exact le_trans (min_le_right _ _) (min_le_left _ _)
      | exact le_trans (min_le_right _ _) (le_trans (min_le_right _ _) (min_le_left _ _))

lemma min_intCast_exists (a : ℚ) (b : ℤ) (h : ∃ k : ℤ, a = (k : ℚ)) :
    ∃ m : ℤ, min a ((b : ℤ) : ℚ) = (m : ℚ) := by
  obtain ⟨k, rfl⟩ := h
  exact ⟨min k b, by push_cast; rfl⟩

lemma containsQty_true_some (lo m p q : ℚ) (h1 : lo ≤ q) (h2 : q ≤ m) :
    Tier.containsQty ⟨lo, some m, p⟩ q = true := by
  simp [Tier.containsQty, h1, h2]

lemma containsQty_true_none (lo p q : ℚ) (h1 : lo ≤ q) :
    Tier.containsQty ⟨lo, none, p⟩ q = true := by
  simp [Tier.containsQty, h1]

lemma containsQty_false_lo (lo : ℚ) (hi : Option ℚ) (p q : ℚ) (h : ¬ lo ≤ q) :
    Tier.containsQty ⟨lo, hi, p⟩ q = false := by
  cases hi <;> simp [Tier.containsQty, h]

lemma containsQty_false_hi (lo m p q : ℚ) (h : ¬ q ≤ m) :
    Tier.containsQty ⟨lo, some m, p⟩ q = false := by
  simp [Tier.containsQty, h]

lemma cost_of_find (item : SupplyItem) (q : ℚ) (hq : ¬ q ≤ 0) (t : Tier)
    (hf : (SupplyPricing item).find? (fun tt => tt.containsQty q) = some t) :
    calculate_supply_cost item q = roundCents (q * t.price) := by
  simp [calculate_supply_cost, if_neg hq, hf]

lemma tiers3_first (t1 t2 t3 : Tier) (q : ℚ) (h1 : t1.containsQty q = true)
    (h2 : t2.containsQty q = false) (h3 : t3.containsQty q = false) :
    [t1, t2, t3].countP (fun t => t.containsQty q) = 1 ∧
    [t1, t2, t3].find? (fun t => t.containsQty q) = some t1 := by
  constructor
  · simp [List.countP_cons, List.countP_nil, h1, h2, h3]
  · simp [List.find?, h1]

lemma tiers3_second (t1 t2 t3 : Tier) (q : ℚ) (h1 : t1.containsQty q = false)
    (h2 : t2.containsQty q = true) (h3 : t3.containsQty q = false) :
    [t1, t2, t3].countP (fun t => t.containsQty q) = 1 ∧
    [t1, t2, t3].find? (fun t => t.containsQty q) = some t2 := by
  constructor
  · simp [List.countP_cons, List.countP_nil, h1, h2, h3]
  · simp [List.find?, h1, h2]

lemma tiers3_third (t1 t2 t3 : Tier) (q : ℚ) (h1 : t1.containsQty q = false)
    (h2 : t2.containsQty q = false) (h3 : t3.containsQty q = true) :
    [t1, t2, t3].countP (fun t => t.containsQty q) = 1 ∧
    [t1, t2, t3].find? (fun t => t.containsQty q) = some t3 := by
  constructor
  · simp [List.countP_cons, List.countP_nil, h1, h2, h3]
  · simp [List.find?, h1, h2, h3]

lemma tiers2_first (t1 t2 : Tier) (q : ℚ) (h1 : t1.containsQty q = true)
    (h2 : t2.containsQty q = false) :
    [t1, t2].countP (fun t => t.containsQty q) = 1 ∧
    [t1, t2].find? (fun t => t.containsQty q) = some t1 := by
  constructor
  · simp [List.countP_cons, List.countP_nil, h1, h2]
  · simp [List.find?, h1]

lemma tiers2_second (t1 t2 : Tier) (q : ℚ) (h1 : t1.containsQty q = false)
    (h2 : t2.containsQty q = true) :
    [t1, t2].countP (fun t => t.containsQty q) = 1 ∧
    [t1, t2].find? (fun t => t.containsQty q) = some t2 := by
  constructor
  · simp [List.countP_cons, List.countP_nil, h1, h2]
  · simp [List.find?, h1, h2]

lemma fillTrue_replicate : ∀ (c m : ℕ), c ≤ m →
    fillTrue (List.replicate m false) c
      = List.replicate c true ++ List.replicate (m - c) false := by
  intro c
  induction c with
  | zero => intro m h; simp [fillTrue]
  | succ n ih =>
    intro m h
    have hn : n ≤ m := by omega
    rw [fillTrue, ih m hn, jsArraySet]
    have hlen : n < (List.replicate n true ++ List.replicate (m - n) false).length := by
      simp; omega
    rw [if_pos hlen, List.set_append, if_neg (by simp)]
    have hmn : m - n = (m - n - 1) + 1 := by omega
    rw [hmn, List.replicate_succ]
    simp [List.set]
    rw [List.replicate_succ]
    have : m - (n + 1) = m - n - 1 := by omega
    rw [this]
    rw [← List.singleton_append, ← List.append_assoc, ← List.replicate_succ',
      List.replicate_succ, List.cons_append]

lemma cons_set_perm (x : Bool) : ∀ (m : ℕ) (t : List Bool) (h : m < t.length),
    (x :: t).Perm (t.get ⟨m, h⟩ :: t.set m x)
  | 0, y :: t, _ => by
    simpa [List.set] using List.Perm.swap y x t
  | m + 1, y :: t, h => by
    have hm : m < t.length := by simpa using h
    have step1 : (x :: y :: t).Perm (y :: x :: t) := List.Perm.swap y x t
    have step2 : (y :: x :: t).Perm (y :: t.get ⟨m, hm⟩ :: t.set m x) :=
      List.Perm.cons y (cons_set_perm x m t hm)
    have step3 : (y :: t.get ⟨m, hm⟩ :: t.set m x).Perm
        (t.get ⟨m, hm⟩ :: y :: t.set m x) := List.Perm.swap (t.get ⟨m, hm⟩) y _
    exact (step1.trans step2).trans step3

lemma set_set_perm : ∀ (l : List Bool) (i j : ℕ) (hi : i < l.length)
    (hj : j < l.length),
    ((l.set i (l.get ⟨j, hj⟩)).set j (l.get ⟨i, hi⟩)).Perm l
  | x :: t, 0, 0, _, _ => by simp [List.set]
  | x :: t, 0, m + 1, _, hj => by
    have hm : m < t.length := by simpa using hj
    simpa [List.set] using (cons_set_perm x m t hm).symm
  | x :: t, k + 1, 0, hi, _ => by
    have hk : k < t.length := by simpa using hi
    simpa [List.set] using (cons_set_perm x k t hk).symm
  | x :: t, k + 1, m + 1, hi, hj => by
    have hk : k < t.length := by simpa using hi
    have hm : m < t.length := by simpa using hj
    simpa [List.set] using List.Perm.cons x (set_set_perm t k m hk hm)

lemma fySwap_perm (l : List Bool) (i j : ℕ) (hi : i < l.length)
    (hj : j < l.length) : (fySwap l i j).Perm l := by
  unfold fySwap
  rw [List.getD_eq_get l false hj, List.getD_eq_get l false hi]
  exact set_set_perm l i j hi hj

lemma fySwap_length (l : List Bool) (i j : ℕ) :
    (fySwap l i j).length = l.length := by
  simp [fySwap]

lemma fyLoop_perm (rand : ℕ → ℕ) (hrand : ∀ i, rand i ≤ i) (n : ℕ) :
    ∀ (l : List Bool), n < l.length → (fyLoop rand n l).Perm l := by
  induction n with
  | zero => intro l _; simp [fyLoop]
  | succ k ih =>
    intro l h
    rw [fyLoop]
    have hjl : rand (k + 1) < l.length := by have := hrand (k + 1); omega
    have hperm := fySwap_perm l (k + 1) (rand (k + 1)) h hjl
    have hlen := fySwap_length l (k + 1) (rand (k + 1))
    exact (ih _ (by omega)).trans hperm

lemma inv_init : Inv init_game := by
  refine ⟨by norm_num [init_game], by norm_num [init_game], by norm_num [init_game],
    by norm_num [init_game], by norm_num [init_game], by norm_num [init_game],
    by norm_num [init_game], ⟨100, by norm_num [init_game, STARTING_PRICE]⟩,
    Or.inr (Or.inr (Or.inl rfl))⟩

lemma set_weather_eq (s : GameState) (r : ℚ) :
    ∃ w, set_weather s r = { s with weather := w } := by
  cases hw : weatherWalk WeatherChance (r * (WeatherChance.map Prod.snd).sum) with
  | none => exact ⟨.sunny, by simp [set_weather, hw]⟩
  | some w => exact ⟨w, by simp [set_weather, hw]⟩

lemma inv_make_lemonade (s : GameState) (r : ℚ) (hinv : Inv s) (hr0 : 0 ≤ r) :
    Inv (make_lemonade s r) := by
  obtain ⟨h1, h2, h3, h4, h5, h6, h7, h8, h9⟩ := hinv
  by_cases hz : s.recipe.lemons = 0
  · have heq : make_lemonade s r = { s with cups_sold := 0 } := by
      simp [make_lemonade, hz]
    rw [heq]
    exact ⟨h1, h2, h3, h4, h5, h6, h7, h8, h9⟩
  · have hlem : 0 < s.recipe.lemons := lt_of_le_of_ne h5 (Ne.symm hz)
    have htb := taste_score_bounds s.recipe.lemons s.recipe.sugar
      (IdealRecipe s.weather).lemons (IdealRecipe s.weather).sugar
    set cs := calculate_cups_sold s.price_per_cup (mlCupsAvail s.supplies s.recipe)
      s.weather
      (calculate_taste_score s.recipe.lemons s.recipe.sugar
        (IdealRecipe s.weather).lemons (IdealRecipe s.weather).sugar) r with hcs
    have heq : make_lemonade s r = { s with
        player_money := s.player_money + s.price_per_cup * cs
        supplies := { lemons := s.supplies.lemons - s.recipe.lemons * cs
                      sugar := s.supplies.sugar - s.recipe.sugar * cs
                      ice := s.supplies.ice - s.recipe.ice * cs
                      cups := s.supplies.cups - cs }
        cups_sold := cs
        total_earnings := s.total_earnings + s.price_per_cup * cs } := by
      simp [make_lemonade, hz, hcs]
    rw [heq]
    have hcs0 : 0 ≤ cs :=
      cups_sold_nonneg _ _ _ _ _ (by linarith [htb.1]) hr0
        (mlCupsAvail_nonneg _ _ h1 h2 h3 h4)
    have hcsle : cs ≤ mlCupsAvail s.supplies s.recipe := cups_sold_le_avail _ _ _ _ _
    have hlemsub : 0 ≤ s.supplies.lemons - s.recipe.lemons * cs := by
      have hdiv : cs ≤ s.supplies.lemons / s.recipe.lemons :=
        hcsle.trans (mlCupsAvail_le_lemons s.supplies s.recipe hlem)
      have := (le_div_iff hlem).mp hdiv
      nlinarith
    have hsugsub : 0 ≤ s.supplies.sugar - s.recipe.sugar * cs := by
      rcases eq_or_lt_of_le h6 with he | hlt
      · rw [← he, zero_mul, sub_zero]; exact h2
      · have hdiv : cs ≤ s.supplies.sugar / s.recipe.sugar :=
          hcsle.trans (mlCupsAvail_le_sugar s.supplies s.recipe hlt)
        have := (le_div_iff hlt).mp hdiv
        nlinarith
    have hicesub : 0 ≤ s.supplies.ice - s.recipe.ice * cs := by
      rcases eq_or_lt_of_le h7 with he | hlt
      · rw [← he, zero_mul, sub_zero]; exact h3
      · have hdiv : cs ≤ s.supplies.ice / s.recipe.ice :=
          hcsle.trans (mlCupsAvail_le_ice s.supplies s.recipe hlt)
        have := (le_div_iff hlt).mp hdiv
        nlinarith
    have hcupsub : 0 ≤ s.supplies.cups - cs := by
      have := hcsle.trans (mlCupsAvail_le_cups s.supplies s.recipe)
      linarith
    exact ⟨hlemsub, hsugsub, hicesub, hcupsub, h5, h6, h7, h8, h9⟩

/-- C1: for every game state whose recipe has lemons greater than zero and every demand roll, make_lemonade returns a state in which each ingredient supply equals the prior supply minus the recipe amount times cups_sold, the cup supply drops by cups_sold, player_money and total_earnings increase by exactly price_per_cup times cups_sold, and cups_sold is set to the demand-model result. -/
theorem make_lemonade_updates_state (s : GameState) (random : ℚ)
    (h : 0 < s.recipe.lemons) :
    (make_lemonade s random).supplies.lemons
      = s.supplies.lemons - s.recipe.lemons * (make_lemonade s random).cups_sold ∧
    (make_lemonade s random).supplies.sugar
      = s.supplies.sugar - s.recipe.sugar * (make_lemonade s random).cups_sold ∧
    (make_lemonade s random).supplies.ice
      = s.supplies.ice - s.recipe.ice * (make_lemonade s random).cups_sold ∧
    (make_lemonade s random).supplies.cups
      = s.supplies.cups - (make_lemonade s random).cups_sold ∧
    (make_lemonade s random).player_money
      = s.player_money + s.price_per_cup * (make_lemonade s random).cups_sold ∧
    (make_lemonade s random).total_earnings
      = s.total_earnings + s.price_per_cup * (make_lemonade s random).cups_sold ∧
    (make_lemonade s random).cups_sold
      = calculate_cups_sold s.price_per_cup (mlCupsAvail s.supplies s.recipe)
          s.weather
          (calculate_taste_score s.recipe.lemons s.recipe.sugar
            (IdealRecipe s.weather).lemons (IdealRecipe s.weather).sugar) random := by
  have hne : s.recipe.lemons ≠ 0 := ne_of_gt h
  simp [make_lemonade, hne, mul_comm]

/-- Witness for C1 at a concrete mid-game state. -/
theorem make_lemonade_updates_state_witness :
    (make_lemonade sEx 0).supplies.lemons
      = sEx.supplies.lemons - sEx.recipe.lemons * (make_lemonade sEx 0).cups_sold ∧
    (make_lemonade sEx 0).supplies.sugar
      = sEx.supplies.sugar - sEx.recipe.sugar * (make_lemonade sEx 0).cups_sold ∧
    (make_lemonade sEx 0).supplies.ice
      = sEx.supplies.ice - sEx.recipe.ice * (make_lemonade sEx 0).cups_sold ∧
    (make_lemonade sEx 0).supplies.cups
      = sEx.supplies.cups - (make_lemonade sEx 0).cups_sold ∧
    (make_lemonade sEx 0).player_money
      = sEx.player_money + sEx.price_per_cup * (make_lemonade sEx 0).cups_sold ∧
    (make_lemonade sEx 0).total_earnings
      = sEx.total_earnings + sEx.price_per_cup * (make_lemonade sEx 0).cups_sold ∧
    (make_lemonade sEx 0).cups_sold
      = calculate_cups_sold sEx.price_per_cup (mlCupsAvail sEx.supplies sEx.recipe)
          sEx.weather
          (calculate_taste_score sEx.recipe.lemons sEx.recipe.sugar
            (IdealRecipe sEx.weather).lemons (IdealRecipe sEx.weather).sugar) 0 :=
  make_lemonade_updates_state sEx 0 (by norm_num [sEx])

/-- C2 counterexample: at price 0.35, sunny weather, taste score 1, roll one half, and the un-floored cups available of five halves (as make_lemonade passes when, say, 5 lemons are on hand and the recipe needs 2 per cup), calculate_cups_sold returns five halves, which is not an integer and exceeds the floor of cupsAvailable, refuting the claim as stated. -/
theorem calculate_cups_sold_fractional_output :
    calculate_cups_sold 0.35 (5/2) Weather.sunny 1 (1/2) = 5/2 ∧
    ¬(∃ m : ℤ, (5/2 : ℚ) = (m : ℚ)) ∧
    ¬((5/2 : ℚ) ≤ (⌊(5/2 : ℚ)⌋ : ℚ)) := by
  refine ⟨?_, ?_, ?_⟩
  · rw [calculate_cups_sold_eq]
    norm_num [WeatherFactor, IdealPrice, BASE_DEMAND, PRICE_SENSITIVITY,
      DEMAND_VARIANCE, min_def]
  · rintro ⟨m, hm⟩
    rw [div_eq_iff (by norm_num : (2:ℚ) ≠ 0)] at hm
    have hint : (5 : ℤ) = m * 2 := by exact_mod_cast hm
    omega
  · have hfl : (⌊(5/2 : ℚ)⌋ : ℤ) = 2 := by norm_num
    rw [hfl]
    norm_num

/-- C2 amended: for a taste score in the interval from 0.5 to 1.2, a roll in the half-open unit interval, and non-negative cupsAvailable, the result of calculate_cups_sold is non-negative and at most cupsAvailable; when cupsAvailable is an integer the result is an integer at most the floor of cupsAvailable. -/
theorem calculate_cups_sold_bounded (price cupsAvailable : ℚ) (weather : Weather)
    (taste random : ℚ) (ht0 : 0.5 ≤ taste) (ht1 : taste ≤ 1.2)
    (hr0 : 0 ≤ random) (hr1 : random < 1) (hca : 0 ≤ cupsAvailable) :
    0 ≤ calculate_cups_sold price cupsAvailable weather taste random ∧
    calculate_cups_sold price cupsAvailable weather taste random ≤ cupsAvailable ∧
    ((∃ n : ℤ, cupsAvailable = (n : ℚ)) →
      (∃ m : ℤ, calculate_cups_sold price cupsAvailable weather taste random = (m : ℚ)) ∧
      calculate_cups_sold price cupsAvailable weather taste random ≤ (⌊cupsAvailable⌋ : ℚ)) := by
  refine ⟨cups_sold_nonneg _ _ _ _ _ (by linarith) hr0 hca,
    cups_sold_le_avail _ _ _ _ _, ?_⟩
  rintro ⟨n, rfl⟩
  constructor
  · rw [calculate_cups_sold_eq]
    exact min_intCast_exists _ n ⟨_, rfl⟩
  · rw [Int.floor_intCast]
    exact cups_sold_le_avail _ _ _ _ _

/-- Witness for C2 at concrete arguments. -/
theorem calculate_cups_sold_bounded_witness :
    0 ≤ calculate_cups_sold 0.35 5 Weather.sunny 1 0 ∧
    calculate_cups_sold 0.35 5 Weather.sunny 1 0 ≤ 5 ∧
    ((∃ n : ℤ, (5:ℚ) = (n : ℚ)) →
      (∃ m : ℤ, calculate_cups_sold 0.35 5 Weather.sunny 1 0 = (m : ℚ)) ∧
      calculate_cups_sold 0.35 5 Weather.sunny 1 0 ≤ (⌊(5:ℚ)⌋ : ℚ)) :=
  calculate_cups_sold_bounded 0.35 5 Weather.sunny 1 0 (by norm_num) (by norm_num)
    (by norm_num) (by norm_num) (by norm_num)

/-- C3: when the recipe has zero lemons, make_lemonade returns a state with cups_sold zero and every other field equal to the input state. -/
theorem make_lemonade_no_lemons_identity (s : GameState) (random : ℚ)
    (h : s.recipe.lemons = 0) :
    (make_lemonade s random).cups_sold = 0 ∧
    (make_lemonade s random).player_money = s.player_money ∧
    (make_lemonade s random).supplies = s.supplies ∧
    (make_lemonade s random).recipe = s.recipe ∧
    (make_lemonade s random).weather = s.weather ∧
    (make_lemonade s random).price_per_cup = s.price_per_cup ∧
    (make_lemonade s random).cost_per_cup = s.cost_per_cup ∧
    (make_lemonade s random).current_day = s.current_day ∧
    (make_lemonade s random).total_earnings = s.total_earnings := by
  simp [make_lemonade, h]

/-- Witness for C3 at init_game, whose recipe has zero lemons. -/
theorem make_lemonade_no_lemons_identity_witness :
    (make_lemonade init_game 0).cups_sold = 0 ∧
    (make_lemonade init_game 0).player_money = init_game.player_money ∧
    (make_lemonade init_game 0).supplies = init_game.supplies ∧
    (make_lemonade init_game 0).recipe = init_game.recipe ∧
    (make_lemonade init_game 0).weather = init_game.weather ∧
    (make_lemonade init_game 0).price_per_cup = init_game.price_per_cup ∧
    (make_lemonade init_game 0).cost_per_cup = init_game.cost_per_cup ∧
    (make_lemonade init_game 0).current_day = init_game.current_day ∧
    (make_lemonade init_game 0).total_earnings = init_game.total_earnings :=
  make_lemonade_no_lemons_identity init_game 0 rfl

/-- C4: set_weather, which scales the roll by the total weight 100 and walks the categories CLOUDY(40), SUNNY(35), HOT(15), COLD(10) in listed order subtracting each weight, maps a roll in the closed unit interval to cloudy on [0, 0.40), sunny on [0.40, 0.75), hot on [0.75, 0.90), cold on [0.90, 1), and falls back to sunny at the edge roll equal to 1. -/
theorem set_weather_boundary_map (s : GameState) (r : ℚ) (h0 : 0 ≤ r) (h1 : r ≤ 1) :
    (set_weather s r).weather =
      (if r < 0.40 then Weather.cloudy
       else if r < 0.75 then Weather.sunny
       else if r < 0.90 then Weather.hot
       else if r < 1 then Weather.cold
       else Weather.sunny) := by
  simp only [set_weather, WeatherChance, List.map_cons, List.map_nil, List.sum_cons,
    List.sum_nil, weatherWalk]
  norm_num
  split_ifs <;> first | rfl | (exfalso; linarith)

/-- Witness for C4 at roll one half. -/
theorem set_weather_boundary_map_witness :
    (set_weather init_game (1/2)).weather =
      (if (1/2 : ℚ) < 0.40 then Weather.cloudy
       else if (1/2 : ℚ) < 0.75 then Weather.sunny
       else if (1/2 : ℚ) < 0.90 then Weather.hot
       else if (1/2 : ℚ) < 1 then Weather.cold
       else Weather.sunny) :=
  set_weather_boundary_map init_game (1/2) (by norm_num) (by norm_num)

/-- C5: every state reachable from init_game by set_recipe with non-negative arguments, set_price_per_cup with non-negative cost, set_weather with a roll in the unit interval, and make_lemonade keeps all supplies and recipe values non-negative, keeps price_per_cup an exact two-decimal value, and keeps weather one of the four enum values. -/
theorem reachable_states_invariant (s : GameState) (h : Reachable s) : Inv s := by
  induction h with
  | init => exact inv_init
  | recipe s l sg i hs h1 h2 h3 ih =>
    obtain ⟨g1, g2, g3, g4, _, _, _, g8, g9⟩ := ih
    exact ⟨g1, g2, g3, g4, h1, h2, h3, g8, g9⟩
  | price s c hs h ih =>
    obtain ⟨g1, g2, g3, g4, g5, g6, g7, _, g9⟩ := ih
    exact ⟨g1, g2, g3, g4, g5, g6, g7, ⟨jsRound (c * 100), rfl⟩, g9⟩
  | weather s r hs h0 h1 ih =>
    obtain ⟨g1, g2, g3, g4, g5, g6, g7, g8, _⟩ := ih
    obtain ⟨w, hw⟩ := set_weather_eq s r
    rw [hw]
    exact ⟨g1, g2, g3, g4, g5, g6, g7, g8, weatherValid_all w⟩
  | lemonade s r hs h0 h1 ih => exact inv_make_lemonade s r ih h0

/-- Witness for C5 at init_game. -/
theorem reachable_states_invariant_witness : Inv init_game :=
  reachable_states_invariant init_game Reachable.init

/-- C6: calculate_supply_cost returns 0 for every non-positive quantity; for every integer quantity at least 1, exactly one pricing tier of the item matches and the cost equals the quantity times that tier price rounded to cents; lemons at quantity 50 cost 1.00 and at 51 cost 0.92. -/
theorem calculate_supply_cost_tiers (item : SupplyItem) (q0 : ℚ) (q : ℤ) :
    (q0 ≤ 0 → calculate_supply_cost item q0 = 0) ∧
    (1 ≤ q →
      (SupplyPricing item).countP (fun t => t.containsQty (q : ℚ)) = 1 ∧
      ∃ t : Tier,
        (SupplyPricing item).find? (fun t => t.containsQty (q : ℚ)) = some t ∧
        calculate_supply_cost item (q : ℚ) = roundCents ((q : ℚ) * t.price)) ∧
    calculate_supply_cost SupplyItem.lemons 50 = 1.00 ∧
    calculate_supply_cost SupplyItem.lemons 51 = 0.92 := by
  refine ⟨fun h => by simp [calculate_supply_cost, h], fun hq => ?_, ?_, ?_⟩
  · have hq0 : ¬ (q : ℚ) ≤ 0 := by exact_mod_cast (by omega : ¬ (q ≤ 0))
    have hq1 : (1 : ℚ) ≤ (q : ℚ) := by exact_mod_cast hq
    cases item with
    | lemons =>
      rcases (by omega : q ≤ 50 ∨ (51 ≤ q ∧ q ≤ 100) ∨ 101 ≤ q) with hr | hr | hr
      · have hA := containsQty_true_some 1 50 0.02 (q : ℚ) hq1 (by exact_mod_cast hr)
        have hB := containsQty_false_lo 51 (some 100) 0.018 (q : ℚ)
          (by exact_mod_cast (by omega : ¬ (51 ≤ q)))
        have hC := containsQty_false_lo 101 none 0.015 (q : ℚ)
          (by exact_mod_cast (by omega : ¬ (101 ≤ q)))
        obtain ⟨hcount, hfind⟩ := tiers3_first _ _ _ _ hA hB hC
        exact ⟨hcount, _, hfind, cost_of_find _ _ hq0 _ hfind⟩
      · have hA := containsQty_false_hi 1 50 0.02 (q : ℚ)
          (by exact_mod_cast (by omega : ¬ (q ≤ 50)))
        have hB := containsQty_true_some 51 100 0.018 (q : ℚ)
          (by exact_mod_cast hr.1) (by exact_mod_cast hr.2)
        have hC := containsQty_false_lo 101 none 0.015 (q : ℚ)
          (by exact_mod_cast (by omega : ¬ (101 ≤ q)))
        obtain ⟨hcount, hfind⟩ := tiers3_second _ _ _ _ hA hB hC
        exact ⟨hcount, _, hfind, cost_of_find _ _ hq0 _ hfind⟩
      · have hA := containsQty_false_hi 1 50 0.02 (q : ℚ)
          (by exact_mod_cast (by omega : ¬ (q ≤ 50)))
        have hB := containsQty_false_hi 51 100 0.018 (q : ℚ)
          (by exact_mod_cast (by omega : ¬ (q ≤ 100)))
        have hC := containsQty_true_none 101 0.015 (q : ℚ) (by exact_mod_cast hr)
        obtain ⟨hcount, hfind⟩ := tiers3_third _ _ _ _ hA hB hC
        exact ⟨hcount, _, hfind, cost_of_find _ _ hq0 _ hfind⟩
    | sugar =>
      rcases (by omega : q ≤ 50 ∨ (51 ≤ q ∧ q ≤ 100) ∨ 101 ≤ q) with hr | hr | hr
      · have hA := containsQty_true_some 1 50 0.01 (q : ℚ) hq1 (by exact_mod_cast hr)
        have hB := containsQty_false_lo 51 (some 100) 0.009 (q : ℚ)
          (by exact_mod_cast (by omega : ¬ (51 ≤ q)))
        have hC := containsQty_false_lo 101 none 0.008 (q : ℚ)
          (by exact_mod_cast (by omega : ¬ (101 ≤ q)))
        obtain ⟨hcount, hfind⟩ := tiers3_first _ _ _ _ hA hB hC
        exact ⟨hcount, _, hfind, cost_of_find _ _ hq0 _ hfind⟩
      · have hA := containsQty_false_hi 1 50 0.01 (q : ℚ)
          (by exact_mod_cast (by omega : ¬ (q ≤ 50)))
        have hB := containsQty_true_some 51 100 0.009 (q : ℚ)
          (by exact_mod_cast hr.1) (by exact_mod_cast hr.2)
        have hC := containsQty_false_lo 101 none 0.008 (q : ℚ)
          (by exact_mod_cast (by omega : ¬ (101 ≤ q)))
        obtain ⟨hcount, hfind⟩ := tiers3_second _ _ _ _ hA hB hC
        exact ⟨hcount, _, hfind, cost_of_find _ _ hq0 _ hfind⟩
      · have hA := containsQty_false_hi 1 50 0.01 (q : ℚ)
          (by exact_mod_cast (by omega : ¬ (q ≤ 50)))
        have hB := containsQty_false_hi 51 100 0.009 (q : ℚ)
          (by exact_mod_cast (by omega : ¬ (q ≤ 100)))
        have hC := containsQty_true_none 101 0.008 (q : ℚ) (by exact_mod_cast hr)
        obtain ⟨hcount, hfind⟩ := tiers3_third _ _ _ _ hA hB hC
        exact ⟨hcount, _, hfind, cost_of_find _ _ hq0 _ hfind⟩
    | ice =>
      rcases (by omega : q ≤ 100 ∨ (101 ≤ q ∧ q ≤ 300) ∨ 301 ≤ q) with hr | hr | hr
      · have hA := containsQty_true_some 1 100 0.01 (q : ℚ) hq1 (by exact_mod_cast hr)
        have hB := containsQty_false_lo 101 (some 300) 0.009 (q : ℚ)
          (by exact_mod_cast (by omega : ¬ (101 ≤ q)))
        have hC := containsQty_false_lo 301 none 0.008 (q : ℚ)
          (by exact_mod_cast (by omega : ¬ (301 ≤ q)))
        obtain ⟨hcount, hfind⟩ := tiers3_first _ _ _ _ hA hB hC
        exact ⟨hcount, _, hfind, cost_of_find _ _ hq0 _ hfind⟩
      · have hA := containsQty_false_hi 1 100 0.01 (q : ℚ)
          (by exact_mod_cast (by omega : ¬ (q ≤ 100)))
        have hB := containsQty_true_some 101 300 0.009 (q : ℚ)
          (by exact_mod_cast hr.1) (by exact_mod_cast hr.2)
        have hC := containsQty_false_lo 301 none 0.008 (q : ℚ)
          (by exact_mod_cast (by omega : ¬ (301 ≤ q)))
        obtain ⟨hcount, hfind⟩ := tiers3_second _ _ _ _ hA hB hC
        exact ⟨hcount, _, hfind, cost_of_find _ _ hq0 _ hfind⟩
      · have hA := containsQty_false_hi 1 100 0.01 (q : ℚ)
          (by exact_mod_cast (by omega : ¬ (q ≤ 100)))
        have hB := containsQty_false_hi 101 300 0.009 (q : ℚ)
          (by exact_mod_cast (by omega : ¬ (q ≤ 300)))
        have hC := containsQty_true_none 301 0.008 (q : ℚ) (by exact_mod_cast hr)
        obtain ⟨hcount, hfind⟩ := tiers3_third _ _ _ _ hA hB hC
        exact ⟨hcount, _, hfind, cost_of_find _ _ hq0 _ hfind⟩
    | cups =>
      rcases (by omega : q ≤ 100 ∨ 101 ≤ q) with hr | hr
      · have hA := containsQty_true_some 1 100 0.01 (q : ℚ) hq1 (by exact_mod_cast hr)
        have hB := containsQty_false_lo 101 none 0.009 (q : ℚ)
          (by exact_mod_cast (by omega : ¬ (101 ≤ q)))
        obtain ⟨hcount, hfind⟩ := tiers2_first _ _ _ hA hB
        exact ⟨hcount, _, hfind, cost_of_find _ _ hq0 _ hfind⟩
      · have hA := containsQty_false_hi 1 100 0.01 (q : ℚ)
          (by exact_mod_cast (by omega : ¬ (q ≤ 100)))
        have hB := containsQty_true_none 101 0.009 (q : ℚ) (by exact_mod_cast hr)
        obtain ⟨hcount, hfind⟩ := tiers2_second _ _ _ hA hB
        exact ⟨hcount, _, hfind, cost_of_find _ _ hq0 _ hfind⟩
  · have hA : Tier.containsQty ⟨1, some 50, 0.02⟩ (50 : ℚ) = true :=
      containsQty_true_some _ _ _ _ (by norm_num) (by norm_num)
    have hfind : (SupplyPricing SupplyItem.lemons).find?
        (fun t => t.containsQty (50 : ℚ)) = some ⟨1, some 50, 0.02⟩ := by
      simp [SupplyPricing, List.find?, hA]
    rw [cost_of_find _ _ (by norm_num) _ hfind]
    norm_num [roundCents, jsRound]
  · have hA : Tier.containsQty ⟨1, some 50, 0.02⟩ (51 : ℚ) = false :=
      containsQty_false_hi _ _ _ _ (by norm_num)
    have hB : Tier.containsQty ⟨51, some 100, 0.018⟩ (51 : ℚ) = true :=
      containsQty_true_some _ _ _ _ (by norm_num) (by norm_num)
    have hfind : (SupplyPricing SupplyItem.lemons).find?
        (fun t => t.containsQty (51 : ℚ)) = some ⟨51, some 100, 0.018⟩ := by
      simp [SupplyPricing, List.find?, hA, hB]
    rw [cost_of_find _ _ (by norm_num) _ hfind]
    norm_num [roundCents, jsRound]

/-- Witness for C6: a negative quantity costs nothing. -/
theorem calculate_supply_cost_tiers_witness :
    calculate_supply_cost SupplyItem.lemons (-1 : ℚ) = 0 :=
  (calculate_supply_cost_tiers SupplyItem.lemons (-1) 50).1 (by norm_num)

/-- C7 counterexample: with cupsSold 2 greater than maxCups 1, the seeding loop writes past the end of the JS array, so the result has length 2 with two true entries rather than being a sequence of maxCups booleans with min cupsSold maxCups true values, refuting the claim as stated. -/
theorem generateSalesAttempts_overflow :
    (generateSalesAttempts (fun _ => 0) 1 2).length = 2 ∧
    (generateSalesAttempts (fun _ => 0) 1 2).count true = 2 ∧
    ¬ ((generateSalesAttempts (fun _ => 0) 1 2).length = 1) := by
  decide

/-- C7 amended: whenever cupsSold is at most maxCups, generateSalesAttempts returns a sequence of exactly maxCups booleans containing exactly min cupsSold maxCups true values, for every Fisher-Yates swap-index choice function whose swap target at index i lies in [0, i]. -/
theorem generateSalesAttempts_count (rand : ℕ → ℕ) (maxCups cupsSold : ℕ)
    (hrand : ∀ i, rand i ≤ i) (hle : cupsSold ≤ maxCups) :
    (generateSalesAttempts rand maxCups cupsSold).length = maxCups ∧
    (generateSalesAttempts rand maxCups cupsSold).count true
      = min cupsSold maxCups := by
  have hfill := fillTrue_replicate cupsSold maxCups hle
  unfold generateSalesAttempts
  rw [hfill]
  have hlen : (List.replicate cupsSold true
      ++ List.replicate (maxCups - cupsSold) false).length = maxCups := by
    simp; omega
  rcases Nat.eq_zero_or_pos maxCups with h0 | hpos
  · subst h0
    have hc0 : cupsSold = 0 := by omega
    subst hc0
    simp [fyLoop]
  · have hperm := fyLoop_perm rand hrand
      ((List.replicate cupsSold true
        ++ List.replicate (maxCups - cupsSold) false).length - 1)
      (List.replicate cupsSold true ++ List.replicate (maxCups - cupsSold) false)
      (by rw [hlen]; omega)
    constructor
    · rw [hperm.length_eq, hlen]
    · rw [hperm.count_eq]
      simp [List.count_append, List.count_replicate]
      omega

/-- Witness for C7 at maxCups 5, cupsSold 3. -/
theorem generateSalesAttempts_count_witness :
    (generateSalesAttempts (fun _ => 0) 5 3).length = 5 ∧
    (generateSalesAttempts (fun _ => 0) 5 3).count true = min 3 5 :=
  generateSalesAttempts_count (fun _ => 0) 5 3 (fun i => Nat.zero_le i)
    (by norm_num)

/-- C9: calculate_taste_score always lies in the interval from 0.5 to 1.2; it equals 1.2 exactly when both ingredient amounts match the ideals, and otherwise equals 1 minus 0.3 times the absolute lemon difference plus 0.2 times the absolute sugar difference, clamped to the interval; in particular it is 1.2 at (1,1,1,1) and 0.7 at (2,1,1,1). -/
theorem calculate_taste_score_clamped (lemons sugar ideal_lemons ideal_sugar : ℚ) :
    (0.5 ≤ calculate_taste_score lemons sugar ideal_lemons ideal_sugar ∧
      calculate_taste_score lemons sugar ideal_lemons ideal_sugar ≤ 1.2) ∧
    (lemons = ideal_lemons ∧ sugar = ideal_sugar →
      calculate_taste_score lemons sugar ideal_lemons ideal_sugar = 1.2) ∧
    (¬(lemons = ideal_lemons ∧ sugar = ideal_sugar) →
      calculate_taste_score lemons sugar ideal_lemons ideal_sugar
        = min 1.2 (max 0.5
            (1 - (0.3 * |lemons - ideal_lemons| + 0.2 * |sugar - ideal_sugar|)))) ∧
    calculate_taste_score 1 1 1 1 = 1.2 ∧
    calculate_taste_score 2 1 1 1 = 0.7 := by
  have hb := taste_score_bounds lemons sugar ideal_lemons ideal_sugar
  refine ⟨⟨by linarith [hb.1], by linarith [hb.2]⟩, ?_, ?_, ?_, ?_⟩
  · rintro ⟨e1, e2⟩
    subst e1; subst e2
    norm_num [calculate_taste_score, TASTE_SCORE_MIN, TASTE_SCORE_MAX,
      PERFECT_RECIPE_BONUS]
  · intro h
    have hcond : ¬(|lemons - ideal_lemons| = 0 ∧ |sugar - ideal_sugar| = 0) := by
      simpa [abs_eq_zero, sub_eq_zero] using h
    have hld : 0 ≤ |lemons - ideal_lemons| := abs_nonneg _
    have hsd : 0 ≤ |sugar - ideal_sugar| := abs_nonneg _
    unfold calculate_taste_score
    simp only [TASTE_SCORE_MIN, TASTE_SCORE_MAX, TASTE_PENALTY_LEMON,
      TASTE_PENALTY_SUGAR, PERFECT_RECIPE_BONUS, if_neg hcond]
    split_ifs with hA hB hC <;>
      first
        | (exfalso; norm_num at hA hB ⊢ <;> linarith)
        | (rw [eq_comm, min_eq_right, max_eq_left] <;> norm_num at hA ⊢ <;> linarith)
        | (rw [eq_comm, min_eq_right, max_eq_right] <;> norm_num at hA ⊢ <;> try linarith)
  · norm_num [calculate_taste_score, TASTE_SCORE_MIN, TASTE_SCORE_MAX,
      PERFECT_RECIPE_BONUS]
  · norm_num [calculate_taste_score, TASTE_SCORE_MIN, TASTE_SCORE_MAX,
      PERFECT_RECIPE_BONUS, TASTE_PENALTY_LEMON, TASTE_PENALTY_SUGAR]

/-- Witness for C9: the penalty formula instantiated at (2,1,1,1). -/
theorem calculate_taste_score_clamped_witness :
    calculate_taste_score 2 1 1 1
      = min 1.2 (max 0.5 (1 - (0.3 * |(2:ℚ) - 1| + 0.2 * |(1:ℚ) - 1|))) :=
  (calculate_taste_score_clamped 2 1 1 1).2.2.1 (by norm_num)

/-- C10: for all non-negative supplies and recipes, calculate_maximum_cups_available equals the floor of the un-floored cups available minimum computed inline in make_lemonade whenever the recipe has lemons, and when the recipe has no lemons both yield zero sellable cups (the maximum is 0 and make_lemonade sells 0). -/
theorem max_cups_available_refines_inline (supplies : Supplies) (recipe : Recipe)
    (h1 : 0 ≤ supplies.lemons) (h2 : 0 ≤ supplies.sugar) (h3 : 0 ≤ supplies.ice)
    (h4 : 0 ≤ supplies.cups) (h5 : 0 ≤ recipe.lemons) (h6 : 0 ≤ recipe.sugar)
    (h7 : 0 ≤ recipe.ice) :
    (0 < recipe.lemons →
      calculate_maximum_cups_available supplies recipe
        = (⌊mlCupsAvail supplies recipe⌋ : ℚ)) ∧
    (recipe.lemons = 0 →
      calculate_maximum_cups_available supplies recipe = 0 ∧
      ∀ (s : GameState) (random : ℚ),
        s.recipe = recipe → (make_lemonade s random).cups_sold = 0) := by
  constructor
  · intro h
    have hne : recipe.lemons ≠ 0 := ne_of_gt h
    simp only [calculate_maximum_cups_available, mlCupsAvail, if_neg hne]
  · intro h
    refine ⟨by simp [calculate_maximum_cups_available, h], ?_⟩
    intro s random hs
    simp [make_lemonade, hs, h]

/-- Witness for C10 at a concrete mid-game state. -/
theorem max_cups_available_refines_inline_witness :
    calculate_maximum_cups_available sEx.supplies sEx.recipe
      = (⌊mlCupsAvail sEx.supplies sEx.recipe⌋ : ℚ) :=
  (max_cups_available_refines_inline sEx.supplies sEx.recipe
    (by norm_num [sEx]) (by norm_num [sEx]) (by norm_num [sEx]) (by norm_num [sEx])
    (by norm_num [sEx]) (by norm_num [sEx]) (by norm_num [sEx])).1 (by norm_num [sEx])

end LemonadeStand
